import Mathlib

/-!
# Verification of the cotton-yield farm-advisory application

Shallow embedding, over `ℚ`, of the arithmetic and control flow of the
application's core functions:

* `cotton_yield_prediction` (app.py) — heuristic yield formula;
* `get_rainfall_zone`, `adjust_climate_for_planting_month` and the
  optimal-planting month scan (routes/geographic_routes.py);
* `WeatherService.build_example_payload` / `get_region_meta`
  (services/weather_service.py);
* the MFA verification step of `verify_mfa` and the `login` handler (app.py);
* `PredictionService.get_last_year_yield` and its fallback chain
  (services/prediction_service.py);
* `PlantingOptimizer.find_optimal_planting_time`
  (services/planting_optimizer.py);
* the confidence-interval computation of the geographic `predict` route.

Python's `round(x, n)` is modelled as `round (x * 10^n) / 10^n` with
Mathlib's `round`; it agrees with Python except on exact ties (Python uses
bankers' rounding on binary floats), and no statement below depends on the
tie-breaking direction.  External effects (the trained model object, the
weather HTTP API, TOTP verification, the SQLite database) are passed in as
explicit parameters or value lists, mirroring their call sites.
-/

namespace CottonApp

/-- Model of Python `round(x, 1)` (up to tie-breaking). -/
def round1 (q : ℚ) : ℚ := (round (q * 10) : ℤ) / 10

/-- Model of Python `round(x, 2)` (up to tie-breaking). -/
def round2 (q : ℚ) : ℚ := (round (q * 100) : ℤ) / 100

theorem round_mono_rat {a b : ℚ} (h : a ≤ b) : round a ≤ round b := by
  rw [round_eq, round_eq]
  exact Int.floor_le_floor (by linarith)

theorem intCast_le_round {n : ℤ} {q : ℚ} (h : (n : ℚ) ≤ q) : n ≤ round q := by
  calc n = round ((n : ℚ)) := (round_intCast n).symm
    _ ≤ round q := round_mono_rat h

theorem round_le_intCast {n : ℤ} {q : ℚ} (h : q ≤ (n : ℚ)) : round q ≤ n := by
  calc round q ≤ round ((n : ℚ)) := round_mono_rat h
    _ = n := round_intCast n

/-! ## `cotton_yield_prediction` (src/app.py, lines 235–271) -/

/-- Source `temp_factor`: 1.0 for 20 ≤ temp ≤ 30, else `max(0.5, 1 - |temp - 25| * 0.02)`. -/
def temp_factor (temp : ℚ) : ℚ :=
  if 20 ≤ temp ∧ temp ≤ 30 then 1 else max (1/2) (1 - |temp - 25| * (2/100))

/-- Source `rain_factor`: 1.0 for 500 ≤ rainfall ≤ 1000, else `max(0.6, 1 - |rainfall - 750| * 0.0005)`. -/
def rain_factor (rainfall : ℚ) : ℚ :=
  if 500 ≤ rainfall ∧ rainfall ≤ 1000 then 1 else max (3/5) (1 - |rainfall - 750| * (5/10000))

/-- Source `humidity_factor`: 1.0 for 60 ≤ humidity ≤ 80, else `max(0.7, 1 - |humidity - 70| * 0.01)`. -/
def humidity_factor (humidity : ℚ) : ℚ :=
  if 60 ≤ humidity ∧ humidity ≤ 80 then 1 else max (7/10) (1 - |humidity - 70| * (1/100))

/-- Source `ph_factor`: 1.0 for 6.0 ≤ ph ≤ 7.5, else `max(0.6, 1 - |ph - 6.75| * 0.1)`. -/
def ph_factor (ph : ℚ) : ℚ :=
  if 6 ≤ ph ∧ ph ≤ 15/2 then 1 else max (3/5) (1 - |ph - 675/100| * (1/10))

/-- Source `npk_factor = min(1.2, (n + p + k) / 15)`. -/
def npk_factor (n p k : ℚ) : ℚ := min (6/5) ((n + p + k) / 15)

/-- The clamped yield percentage: `min(95, max(20, 60 * factors))`. -/
def yield_percentage (temp rainfall humidity ph n p k : ℚ) : ℚ :=
  min 95 (max 20 (60 * temp_factor temp * rain_factor rainfall * humidity_factor humidity *
    ph_factor ph * npk_factor n p k))

/-- The dict returned by `cotton_yield_prediction`. -/
structure YieldResult where
  yieldPct : ℚ
  production : ℚ
  area : ℚ
  deriving Repr, DecidableEq

/-- Source `cotton_yield_prediction(temp, rainfall, humidity, ph, n, p, k, area)`:
returns `{'yield': round(yield_percentage, 1), 'production': round(yield_percentage * 10 * area, 1),
'area': area}`. -/
def cotton_yield_prediction (temp rainfall humidity ph n p k area : ℚ) : YieldResult :=
  let yp := yield_percentage temp rainfall humidity ph n p k
  { yieldPct := round1 yp
    production := round1 (yp * 10 * area)
    area := area }

/-! ## `get_rainfall_zone` (src/routes/geographic_routes.py, lines 189–198) -/

/-- Rainfall-zone bucketing by annual rainfall thresholds. -/
def get_rainfall_zone (annual_rain : ℚ) : String :=
  if annual_rain < 500 then "Arid"
  else if annual_rain < 750 then "Semi-arid"
  else if annual_rain < 1200 then "Sub-humid"
  else "Humid"

theorem round1_bounds {y : ℚ} (h20 : 20 ≤ y) (h95 : y ≤ 95) :
    20 ≤ round1 y ∧ round1 y ≤ 95 := by
  have h1 : (200 : ℤ) ≤ round (y * 10) := intCast_le_round (by push_cast; linarith)
  have h2 : round (y * 10) ≤ (950 : ℤ) := round_le_intCast (by push_cast; linarith)
  have h1' : (200 : ℚ) ≤ (round (y * 10) : ℤ) := by exact_mod_cast h1
  have h2' : ((round (y * 10) : ℤ) : ℚ) ≤ 950 := by exact_mod_cast h2
  unfold round1
  constructor <;> linarith

/-- C1: the heuristic `cotton_yield_prediction` multiplies a base of 60 by clamped
factors (each climatic factor is 1 inside its favourable band and bounded below by
0.5/0.6/0.7/0.6; the NPK factor is capped at 1.2), clamps the result into `[20, 95]`,
and returns `production = yield_percentage * 10 * area` (both display values rounded
to one decimal); the returned yield lies in `[20, 95]`. -/
theorem cotton_yield_prediction_spec
    (temp rainfall humidity ph n p k area : ℚ) :
    ((20 ≤ temp ∧ temp ≤ 30) → temp_factor temp = 1) ∧
    1/2 ≤ temp_factor temp ∧
    ((500 ≤ rainfall ∧ rainfall ≤ 1000) → rain_factor rainfall = 1) ∧
    3/5 ≤ rain_factor rainfall ∧
    ((60 ≤ humidity ∧ humidity ≤ 80) → humidity_factor humidity = 1) ∧
    7/10 ≤ humidity_factor humidity ∧
    ((6 ≤ ph ∧ ph ≤ 15/2) → ph_factor ph = 1) ∧
    3/5 ≤ ph_factor ph ∧
    npk_factor n p k ≤ 6/5 ∧
    20 ≤ yield_percentage temp rainfall humidity ph n p k ∧
    yield_percentage temp rainfall humidity ph n p k ≤ 95 ∧
    (cotton_yield_prediction temp rainfall humidity ph n p k area).production
      = round1 (yield_percentage temp rainfall humidity ph n p k * 10 * area) ∧
    (cotton_yield_prediction temp rainfall humidity ph n p k area).area = area ∧
    20 ≤ (cotton_yield_prediction temp rainfall humidity ph n p k area).yieldPct ∧
    (cotton_yield_prediction temp rainfall humidity ph n p k area).yieldPct ≤ 95 := by
  have hlo : 20 ≤ yield_percentage temp rainfall humidity ph n p k :=
    le_min (by norm_num) (le_max_left _ _)
  have hhi : yield_percentage temp rainfall humidity ph n p k ≤ 95 := min_le_left _ _
  have hy : (cotton_yield_prediction temp rainfall humidity ph n p k area).yieldPct
      = round1 (yield_percentage temp rainfall humidity ph n p k) := rfl
  refine ⟨fun h => by rw [temp_factor, if_pos h], ?_,
    fun h => by rw [rain_factor, if_pos h], ?_,
    fun h => by rw [humidity_factor, if_pos h], ?_,
    fun h => by rw [ph_factor, if_pos h], ?_,
    min_le_left _ _, hlo, hhi, rfl, rfl, ?_, ?_⟩
  · unfold temp_factor; split_ifs with h
    · norm_num
    · exact le_max_left _ _
  · unfold rain_factor; split_ifs with h
    · norm_num
    · exact le_max_left _ _
  · unfold humidity_factor; split_ifs with h
    · norm_num
    · exact le_max_left _ _
  · unfold ph_factor; split_ifs with h
    · norm_num
    · exact le_max_left _ _
  · rw [hy]; exact (round1_bounds hlo hhi).1
  · rw [hy]; exact (round1_bounds hlo hhi).2

theorem cotton_yield_prediction_spec_witness :
    temp_factor 25 = 1 ∧
    20 ≤ (cotton_yield_prediction 25 750 70 7 5 5 5 2).yieldPct ∧
    (cotton_yield_prediction 25 750 70 7 5 5 5 2).yieldPct ≤ 95 :=
  ⟨(cotton_yield_prediction_spec 25 750 70 7 5 5 5 2).1 ⟨by norm_num, by norm_num⟩,
   (cotton_yield_prediction_spec 25 750 70 7 5 5 5 2).2.2.2.2.2.2.2.2.2.2.2.2.2.1,
   (cotton_yield_prediction_spec 25 750 70 7 5 5 5 2).2.2.2.2.2.2.2.2.2.2.2.2.2.2⟩

/-- C6: `get_rainfall_zone` is a total four-way bucketing of annual rainfall:
`"Arid"` iff rain < 500, `"Semi-arid"` iff 500 ≤ rain < 750, `"Sub-humid"` iff
750 ≤ rain < 1200, `"Humid"` iff rain ≥ 1200; the buckets are exhaustive and
mutually exclusive. -/
theorem get_rainfall_zone_spec : ∀ r : ℚ,
    (get_rainfall_zone r = "Arid" ↔ r < 500) ∧
    (get_rainfall_zone r = "Semi-arid" ↔ 500 ≤ r ∧ r < 750) ∧
    (get_rainfall_zone r = "Sub-humid" ↔ 750 ≤ r ∧ r < 1200) ∧
    (get_rainfall_zone r = "Humid" ↔ 1200 ≤ r) := by
  intro r
  unfold get_rainfall_zone
  split_ifs with h1 h2 h3
  · exact ⟨⟨fun _ => h1, fun _ => rfl⟩,
      ⟨fun h => absurd h (by decide), fun h => absurd h1 (not_lt.mpr h.1)⟩,
      ⟨fun h => absurd h (by decide), fun h => absurd h1 (not_lt.mpr (by linarith [h.1]))⟩,
      ⟨fun h => absurd h (by decide), fun h => absurd h1 (not_lt.mpr (by linarith))⟩⟩
  · exact ⟨⟨fun h => absurd h (by decide), fun h => absurd h h1⟩,
      ⟨fun _ => ⟨not_lt.mp h1, h2⟩, fun _ => rfl⟩,
      ⟨fun h => absurd h (by decide), fun h => absurd h2 (not_lt.mpr h.1)⟩,
      ⟨fun h => absurd h (by decide), fun h => absurd h2 (not_lt.mpr (by linarith))⟩⟩
  · exact ⟨⟨fun h => absurd h (by decide), fun h => absurd h h1⟩,
      ⟨fun h => absurd h (by decide), fun h => absurd h.2 h2⟩,
      ⟨fun _ => ⟨not_lt.mp h2, h3⟩, fun _ => rfl⟩,
      ⟨fun h => absurd h (by decide), fun h => absurd h3 (not_lt.mpr h)⟩⟩
  · exact ⟨⟨fun h => absurd h (by decide), fun h => absurd h h1⟩,
      ⟨fun h => absurd h (by decide), fun h => absurd h.2 h2⟩,
      ⟨fun h => absurd h (by decide), fun h => absurd h.2 h3⟩,
      ⟨fun _ => not_lt.mp h3, fun _ => rfl⟩⟩

/-! ## Optimal planting month scan (src/routes/geographic_routes.py) -/

/-- Source `get_month_name` (lines 13–17). -/
def get_month_name (month_num : ℕ) : String :=
  ["January", "February", "March", "April", "May", "June",
   "July", "August", "September", "October", "November", "December"].getD (month_num - 1) ""

/-- Source `get_kenya_season` (lines 20–29). -/
def get_kenya_season (month : ℕ) : String :=
  if month = 3 ∨ month = 4 ∨ month = 5 then "Long Rains"
  else if month = 10 ∨ month = 11 ∨ month = 12 then "Short Rains"
  else if month = 1 ∨ month = 2 ∨ month = 6 ∨ month = 7 ∨ month = 8 ∨ month = 9 then
    "Dry Season"
  else "Transition"

/-- Source `get_kenya_monthly_rainfall_pattern` (lines 32–51): fraction of annual rainfall
per calendar month (0 outside 1..12, where the dict would raise — never reached). -/
def get_kenya_monthly_rainfall_pattern (m : ℕ) : ℚ :=
  match m with
  | 1 => 4/100 | 2 => 4/100 | 3 => 12/100 | 4 => 16/100 | 5 => 13/100 | 6 => 5/100
  | 7 => 4/100 | 8 => 4/100 | 9 => 6/100 | 10 => 11/100 | 11 => 14/100 | 12 => 7/100
  | _ => 0

/-- The `temp_variation` dict (lines 80–83), with the `.get(month, 0)` default. -/
def temp_variation (m : ℕ) : ℚ :=
  match m with
  | 1 => 0 | 2 => 1 | 3 => 1 | 4 => 0 | 5 => -1 | 6 => -2
  | 7 => -2 | 8 => -1 | 9 => 0 | 10 => 1 | 11 => 1 | 12 => 0
  | _ => 0

/-- The climate/location dict fed to `adjust_climate_for_planting_month`. -/
structure Climate where
  temp_c : ℚ
  dewpoint_c : ℚ
  precip_mm : ℚ
  solar_rad : ℚ
  annual_rain : ℚ
  rain_cv : ℚ
  irrigation : ℚ
  prev_yield : ℚ
  soil_type : String
  deriving Repr, DecidableEq, Inhabited

/-- Source `adjust_climate_for_planting_month` (lines 54–95). -/
def adjust_climate_for_planting_month (base : Climate) (planting_month : ℕ) : Climate :=
  let growing_months := (List.range 4).map (fun i => (planting_month + i - 1) % 12 + 1)
  let growing_season_rain :=
    (growing_months.map (fun m => base.annual_rain * get_kenya_monthly_rainfall_pattern m)).sum
  let temp := base.temp_c + temp_variation planting_month
  { base with
    precip_mm := growing_season_rain / 4
    temp_c := temp
    solar_rad :=
      if planting_month = 3 ∨ planting_month = 4 ∨ planting_month = 5 ∨
          planting_month = 10 ∨ planting_month = 11 ∨ planting_month = 12 then
        base.solar_rad - 1
      else base.solar_rad + 1
    dewpoint_c := temp - (if 300 < growing_season_rain then 5 else 8) }

/-- One element of the `monthly_predictions` list built by the route. -/
structure MonthlyPrediction where
  month : String
  month_num : ℕ
  predicted_yield : ℚ
  season : String
  deriving Repr, DecidableEq, Inhabited

/-- The loop `for month in range(1, 13)` of `optimal_planting` (lines 604–625):
each month's climate is perturbed and fed to the model (`pred` abstracts
`prepare_features` + `model.predict`), clamped at 0 and rounded to 2 decimals. -/
def monthly_predictions (pred : Climate → ℚ) (base : Climate) : List MonthlyPrediction :=
  (List.range 12).map (fun i =>
    { month := get_month_name (i + 1)
      month_num := i + 1
      predicted_yield := round2 (max 0 (pred (adjust_climate_for_planting_month base (i + 1))))
      season := get_kenya_season (i + 1) })

/-- Descending order on predicted yield, the sort key of
`monthly_predictions.sort(key=lambda x: x['predicted_yield'], reverse=True)`. -/
def yieldGE (a b : MonthlyPrediction) : Prop := b.predicted_yield ≤ a.predicted_yield

instance : DecidableRel yieldGE := fun a b =>
  inferInstanceAs (Decidable (b.predicted_yield ≤ a.predicted_yield))

instance : IsTotal MonthlyPrediction yieldGE :=
  ⟨fun a b => le_total b.predicted_yield a.predicted_yield⟩

instance : IsTrans MonthlyPrediction yieldGE :=
  ⟨fun _ _ _ h1 h2 => le_trans h2 h1⟩

/-- The sorted monthly list (line 628; a stable sort, as Python's). -/
def sorted_monthly_predictions (pred : Climate → ℚ) (base : Climate) : List MonthlyPrediction :=
  List.insertionSort yieldGE (monthly_predictions pred base)

/-- Source `best_months = monthly_predictions[:3]` after sorting (line 631). -/
def best_months (pred : Climate → ℚ) (base : Climate) : List MonthlyPrediction :=
  (sorted_monthly_predictions pred base).take 3

theorem head_max_of_sorted {l s : List MonthlyPrediction}
    (hp : List.Perm s l) (hs : s.Sorted yieldGE) :
    ∀ p ∈ l, p.predicted_yield ≤ s.headI.predicted_yield := by
  intro p hm
  have hps : p ∈ s := hp.mem_iff.mpr hm
  cases s with
  | nil => simp at hps
  | cons a t =>
    rcases List.mem_cons.mp hps with rfl | ht
    · simp [List.headI]
    · exact (List.sorted_cons.mp hs).1 p ht

/-- C2: the optimal-planting computation evaluates exactly months 1..12, perturbs the
inputs for each month using only the hard-coded tables (rainfall fractions, per-month
temperature variation, ±1 solar adjustment for rainy-season months, dewpoint = temp −
5 or 8 by the 300 mm rule), sorts the twelve predictions in descending yield order,
reports the first three, and the recorded best month has maximal predicted yield. -/
theorem optimal_planting_spec (pred : Climate → ℚ) (base : Climate) :
    (monthly_predictions pred base).map (fun x => x.month_num) =
      [1, 2, 3, 4, 5, 6, 7, 8, 9, 10, 11, 12] ∧
    (∀ m : ℕ,
      (adjust_climate_for_planting_month base m).temp_c = base.temp_c + temp_variation m ∧
      (adjust_climate_for_planting_month base m).solar_rad =
        (if m = 3 ∨ m = 4 ∨ m = 5 ∨ m = 10 ∨ m = 11 ∨ m = 12 then
          base.solar_rad - 1 else base.solar_rad + 1) ∧
      (adjust_climate_for_planting_month base m).precip_mm =
        (((List.range 4).map (fun i => (m + i - 1) % 12 + 1)).map
          (fun mo => base.annual_rain * get_kenya_monthly_rainfall_pattern mo)).sum / 4 ∧
      (adjust_climate_for_planting_month base m).dewpoint_c =
        (adjust_climate_for_planting_month base m).temp_c -
          (if 300 < (((List.range 4).map (fun i => (m + i - 1) % 12 + 1)).map
              (fun mo => base.annual_rain * get_kenya_monthly_rainfall_pattern mo)).sum
           then 5 else 8) ∧
      (adjust_climate_for_planting_month base m).annual_rain = base.annual_rain) ∧
    List.Perm (sorted_monthly_predictions pred base) (monthly_predictions pred base) ∧
    (sorted_monthly_predictions pred base).Sorted yieldGE ∧
    best_months pred base = (sorted_monthly_predictions pred base).take 3 ∧
    ∀ p ∈ monthly_predictions pred base,
      p.predicted_yield ≤ (sorted_monthly_predictions pred base).headI.predicted_yield := by
  refine ⟨rfl, fun m => ⟨rfl, rfl, rfl, rfl, rfl⟩, ?_, ?_, rfl, ?_⟩
  · exact List.perm_insertionSort yieldGE _
  · exact List.sorted_insertionSort yieldGE _
  · exact head_max_of_sorted (List.perm_insertionSort yieldGE _)
      (List.sorted_insertionSort yieldGE _)

theorem round2_zero : round2 0 = 0 := by
  unfold round2
  rw [zero_mul, round_zero]
  norm_num

theorem optimal_planting_spec_witness :
    (⟨"January", 1, 0, "Dry Season"⟩ : MonthlyPrediction) ∈
      monthly_predictions (fun _ => 0) ⟨24, 20, 100, 17, 1000, 20, 20, 3/2, "Red"⟩ ∧
    (0 : ℚ) ≤ (sorted_monthly_predictions (fun _ => 0)
      ⟨24, 20, 100, 17, 1000, 20, 20, 3/2, "Red"⟩).headI.predicted_yield := by
  have hpy : round2 (max 0 ((0:ℚ))) = 0 := by rw [max_self]; exact round2_zero
  have hmem : (⟨"January", 1, 0, "Dry Season"⟩ : MonthlyPrediction) ∈
      monthly_predictions (fun _ => 0) ⟨24, 20, 100, 17, 1000, 20, 20, 3/2, "Red"⟩ := by
    unfold monthly_predictions
    refine List.mem_map.mpr ⟨0, by decide, ?_⟩
    simp [get_month_name, get_kenya_season, hpy, round2_zero]
  exact ⟨hmem,
    (optimal_planting_spec (fun _ => 0) ⟨24, 20, 100, 17, 1000, 20, 20, 3/2, "Red"⟩).2.2.2.2.2
      ⟨"January", 1, 0, "Dry Season"⟩ hmem⟩

/-! ## `PlantingOptimizer.find_optimal_planting_time`
(src/services/planting_optimizer.py, lines 59–163) -/

theorem round_eq_int {q : ℚ} {n : ℤ} (h1 : (n:ℚ) ≤ q + 1/2) (h2 : q + 1/2 < (n:ℚ) + 1) :
    round q = n := by
  rw [round_eq]
  exact Int.floor_eq_iff.mpr ⟨h1, h2⟩

/-- The three planting windows of `planting_windows` for a season. -/
inductive PlantingWindow
  | early
  | mid
  | late
  deriving Repr, DecidableEq

/-- Source `adjustment_factors = {"early": 0.97, "mid": 1.00, "late": 0.95}` (lines 95–99). -/
def adjustment_factor : PlantingWindow → ℚ
  | .early => 97/100
  | .mid => 1
  | .late => 95/100

/-- Dict insertion order of `planting_windows[season]` (and so of `results`). -/
def window_order : List PlantingWindow := [.early, .mid, .late]

/-- Each window's stored `predicted_yield = round(prediction * factor, 2)` (lines 101–107).
`out w` abstracts the outcome of that window's `predict_yield` call: `none` when the
call raised (the `except` branch stores `None`). -/
def window_yield (out : PlantingWindow → Option ℚ) (w : PlantingWindow) : ℚ :=
  round2 ((out w).getD 0 * adjustment_factor w)

/-- Source `valid_results`: the windows whose prediction succeeded, in dict order (line 123). -/
def valid_windows (out : PlantingWindow → Option ℚ) : List PlantingWindow :=
  window_order.filter (fun w => (out w).isSome)

/-- Source `max(valid_results.keys(), key=lambda k: ...)` (lines 128–129): Python's `max`
returns the FIRST key attaining the maximum; `none` models the `ValueError` raised
when no window succeeded (lines 125–126). -/
def optimal_window (out : PlantingWindow → Option ℚ) : Option PlantingWindow :=
  match valid_windows out with
  | [] => none
  | w :: ws =>
    some (ws.foldl (fun best x =>
      if window_yield out best < window_yield out x then x else best) w)

/-- Source `difference_from_optimal = predicted_yield - optimal_yield` (lines 134–137). -/
def difference_from_optimal (out : PlantingWindow → Option ℚ) (w : PlantingWindow) : ℚ :=
  window_yield out w -
    (match optimal_window out with
     | some o => window_yield out o
     | none => 0)

/-- C8 counterexample: with every window's prediction succeeding at the positive base
yield 0.01, the three rounded window yields tie, and Python's `max` then returns the
first dict key, `early` — not `mid` as the claim demands. -/
theorem find_optimal_planting_time_counterexample :
    (0:ℚ) < 1/100 ∧
    optimal_window (fun _ : PlantingWindow => some ((1:ℚ)/100)) = some PlantingWindow.early ∧
    optimal_window (fun _ : PlantingWindow => some ((1:ℚ)/100)) ≠ some PlantingWindow.mid := by
  have hearly : window_yield (fun _ : PlantingWindow => some ((1:ℚ)/100)) .early = 1/100 := by
    unfold window_yield adjustment_factor
    have h : round ((1:ℚ)/100 * (97/100) * 100) = 1 := round_eq_int (by norm_num) (by norm_num)
    simp only [Option.getD_some]
    rw [round2, h]
    norm_num
  have hmid : window_yield (fun _ : PlantingWindow => some ((1:ℚ)/100)) .mid = 1/100 := by
    unfold window_yield adjustment_factor
    have h : round ((1:ℚ)/100 * 1 * 100) = 1 := round_eq_int (by norm_num) (by norm_num)
    simp only [Option.getD_some]
    rw [round2, h]
    norm_num
  have hlate : window_yield (fun _ : PlantingWindow => some ((1:ℚ)/100)) .late = 1/100 := by
    unfold window_yield adjustment_factor
    have h : round ((1:ℚ)/100 * (95/100) * 100) = 1 := round_eq_int (by norm_num) (by norm_num)
    simp only [Option.getD_some]
    rw [round2, h]
    norm_num
  have hopt : optimal_window (fun _ : PlantingWindow => some ((1:ℚ)/100))
      = some PlantingWindow.early := by
    unfold optimal_window
    have hv : valid_windows (fun _ : PlantingWindow => some ((1:ℚ)/100)) = window_order := by
      unfold valid_windows
      simp [window_order]
    rw [hv]
    show some (List.foldl _ PlantingWindow.early [PlantingWindow.mid, PlantingWindow.late]) = _
    simp only [List.foldl]
    have h1 : ¬ window_yield (fun _ : PlantingWindow => some ((1:ℚ)/100)) .early <
        window_yield (fun _ : PlantingWindow => some ((1:ℚ)/100)) .mid := by
      rw [hearly, hmid]; exact lt_irrefl _
    have h2 : ¬ window_yield (fun _ : PlantingWindow => some ((1:ℚ)/100)) .early <
        window_yield (fun _ : PlantingWindow => some ((1:ℚ)/100)) .late := by
      rw [hearly, hlate]; exact lt_irrefl _
    rw [if_neg h1, if_neg h2]
  exact ⟨by norm_num, hopt, by rw [hopt]; simp⟩

/-- C8 amended: when every window's `predict_yield` succeeds with the same base yield
`k/100` (predictions are rounded to 2 decimals, so a whole number of hundredths) and
the base is at least 0.17 — so the 3% and 5% reductions survive the 2-decimal
rounding — the three windows differ only by the fixed factors 0.97 / 1.00 / 0.95, the
optimal window is `mid`, and `difference_from_optimal` is non-positive everywhere and
zero exactly at `mid`. -/
theorem find_optimal_planting_time_amended
    (out : PlantingWindow → Option ℚ) (base : ℚ) (k : ℕ)
    (hall : ∀ w, out w = some base) (hbase : base = (k : ℚ)/100) (hk : 17 ≤ k) :
    (∀ w, window_yield out w = round2 (base * adjustment_factor w)) ∧
    optimal_window out = some PlantingWindow.mid ∧
    (∀ w, difference_from_optimal out w ≤ 0) ∧
    (∀ w, difference_from_optimal out w = 0 ↔ w = PlantingWindow.mid) := by
  have hk' : (17:ℚ) ≤ (k:ℚ) := by exact_mod_cast hk
  have hwy : ∀ w, window_yield out w = round2 (base * adjustment_factor w) := by
    intro w
    unfold window_yield
    rw [hall w]
    rfl
  have hmid : window_yield out .mid = base := by
    rw [hwy, hbase]
    unfold adjustment_factor round2
    have h : round ((k:ℚ)/100 * 1 * 100) = (k:ℤ) := by
      have : ((k:ℚ)/100 * 1 * 100) = ((k:ℤ):ℚ) := by push_cast; ring
      rw [this, round_intCast]
    rw [h]
    push_cast
    ring
  have hearly : window_yield out .early < window_yield out .mid := by
    rw [hwy, hmid, hbase]
    unfold adjustment_factor round2
    have h : round ((k:ℚ)/100 * (97/100) * 100) < (k:ℤ) := by
      rw [round_eq]
      rw [Int.floor_lt]
      push_cast
      linarith
    have h' : ((round ((k:ℚ)/100 * (97/100) * 100) : ℤ) : ℚ) < (k:ℚ) := by exact_mod_cast h
    linarith
  have hlate : window_yield out .late < window_yield out .mid := by
    rw [hwy, hmid, hbase]
    unfold adjustment_factor round2
    have h : round ((k:ℚ)/100 * (95/100) * 100) < (k:ℤ) := by
      rw [round_eq]
      rw [Int.floor_lt]
      push_cast
      linarith
    have h' : ((round ((k:ℚ)/100 * (95/100) * 100) : ℤ) : ℚ) < (k:ℚ) := by exact_mod_cast h
    linarith
  have hopt : optimal_window out = some PlantingWindow.mid := by
    unfold optimal_window
    have hv : valid_windows out = window_order := by
      unfold valid_windows
      simp [window_order, hall]
    rw [hv]
    show some (List.foldl _ PlantingWindow.early [PlantingWindow.mid, PlantingWindow.late]) = _
    simp only [List.foldl]
    rw [if_pos hearly, if_neg (not_lt.mpr hlate.le)]
  have hdiff : ∀ w, difference_from_optimal out w = window_yield out w - window_yield out .mid := by
    intro w
    unfold difference_from_optimal
    rw [hopt]
  refine ⟨hwy, hopt, ?_, ?_⟩
  · intro w
    rw [hdiff]
    cases w with
    | early => linarith
    | mid => linarith
    | late => linarith
  · intro w
    rw [hdiff]
    cases w with
    | early =>
      constructor
      · intro h; exfalso; linarith
      · intro h; exact absurd h (by simp)
    | mid => simp
    | late =>
      constructor
      · intro h; exfalso; linarith
      · intro h; exact absurd h (by simp)

theorem find_optimal_planting_time_amended_witness :
    optimal_window (fun _ : PlantingWindow => some (2:ℚ)) = some PlantingWindow.mid ∧
    difference_from_optimal (fun _ : PlantingWindow => some (2:ℚ)) PlantingWindow.mid = 0 :=
  ⟨(find_optimal_planting_time_amended (fun _ => some 2) 2 200 (fun _ => rfl)
      (by norm_num) (by norm_num)).2.1,
   ((find_optimal_planting_time_amended (fun _ => some 2) 2 200 (fun _ => rfl)
      (by norm_num) (by norm_num)).2.2.2 PlantingWindow.mid).mpr rfl⟩

/-! ## Confidence bounds of the geographic `predict` route
(src/routes/geographic_routes.py, lines 304–309) -/

/-- Default `MODEL_RMSE = 0.772` (lines 135, 146). -/
def MODEL_RMSE : ℚ := 772/1000

/-- Source `confidence_lower = max(0, current_yield - (MODEL_RMSE * 1.96))` (line 307);
`raw` is the model's raw (unclamped) output. -/
def confidence_lower (raw rmse : ℚ) : ℚ := max 0 (raw - rmse * (196/100))

/-- Source `confidence_upper = current_yield + (MODEL_RMSE * 1.96)` (line 308). -/
def confidence_upper (raw rmse : ℚ) : ℚ := raw + rmse * (196/100)

theorem round2_mono {a b : ℚ} (h : a ≤ b) : round2 a ≤ round2 b := by
  unfold round2
  have h' : round (a * 100) ≤ round (b * 100) := round_mono_rat (by linarith)
  have h'' : ((round (a * 100) : ℤ) : ℚ) ≤ ((round (b * 100) : ℤ) : ℚ) := by exact_mod_cast h'
  linarith

/-- C9 counterexample: at raw model output −2 (with the default RMSE 0.772) the
clamp `max(0, ·)` puts the stored lower bound at 0 while the stored upper bound is
−0.49, so `confidence_lower ≤ confidence_upper` fails. -/
theorem geographic_confidence_counterexample :
    round2 (confidence_lower (-2) MODEL_RMSE) = 0 ∧
    round2 (confidence_upper (-2) MODEL_RMSE) = -49/100 ∧
    ¬ round2 (confidence_lower (-2) MODEL_RMSE) ≤ round2 (confidence_upper (-2) MODEL_RMSE) := by
  have hl : confidence_lower (-2) MODEL_RMSE = 0 := by
    unfold confidence_lower MODEL_RMSE
    rw [max_eq_left (by norm_num)]
  have hu : round2 (confidence_upper (-2) MODEL_RMSE) = -49/100 := by
    unfold confidence_upper MODEL_RMSE round2
    have h : round (((-2:ℚ) + 772/1000 * (196/100)) * 100) = -49 :=
      round_eq_int (by norm_num) (by norm_num)
    rw [h]
    norm_num
  refine ⟨by rw [hl]; exact round2_zero, hu, ?_⟩
  rw [hl, round2_zero, hu]
  norm_num

/-- C9 amended: the stored bounds are `round2` of `max(0, raw − 1.96·RMSE)` and of
`raw + 1.96·RMSE`; the stored lower bound is ≥ 0 for EVERY raw output and RMSE —
the `max(0, ·)` clamp guarantees it unconditionally — while `lower ≤ upper` holds
whenever the RMSE is non-negative and the raw model output is at least −1.96·RMSE
(equivalently, whenever the unrounded upper bound is non-negative). -/
theorem geographic_confidence_amended (raw rmse : ℚ) :
    confidence_lower raw rmse = max 0 (raw - rmse * (196/100)) ∧
    confidence_upper raw rmse = raw + rmse * (196/100) ∧
    0 ≤ round2 (confidence_lower raw rmse) ∧
    (0 ≤ rmse → 0 ≤ confidence_upper raw rmse →
      round2 (confidence_lower raw rmse) ≤ round2 (confidence_upper raw rmse)) := by
  have hl0 : (0:ℚ) ≤ confidence_lower raw rmse := le_max_left _ _
  refine ⟨rfl, rfl, ?_, ?_⟩
  · have h := round2_mono hl0
    rwa [round2_zero] at h
  · intro h0 hub
    have hc : (0:ℚ) ≤ rmse * (196/100) := mul_nonneg h0 (by norm_num)
    have hlu : confidence_lower raw rmse ≤ confidence_upper raw rmse := by
      unfold confidence_upper at hub ⊢
      unfold confidence_lower
      exact max_le hub (by linarith)
    exact round2_mono hlu

theorem geographic_confidence_amended_witness :
    0 ≤ round2 (confidence_lower 2 MODEL_RMSE) ∧
    round2 (confidence_lower 2 MODEL_RMSE) ≤ round2 (confidence_upper 2 MODEL_RMSE) ∧
    0 ≤ round2 (confidence_lower (-2) MODEL_RMSE) :=
  ⟨(geographic_confidence_amended 2 MODEL_RMSE).2.2.1,
   (geographic_confidence_amended 2 MODEL_RMSE).2.2.2 (by unfold MODEL_RMSE; norm_num)
     (by unfold confidence_upper MODEL_RMSE; norm_num),
   (geographic_confidence_amended (-2) MODEL_RMSE).2.2.1⟩

/-! ## MFA verification and the login flow (src/app.py, lines 526–632)

The users table stores `backup_codes` as a comma-joined TEXT column; `verify_mfa`
splits it into a Python list, tests membership, and `list.remove`s the first
occurrence of a used code.  The embedding carries the decoded list directly.
`totpOk` abstracts `pyotp.TOTP(secret).verify`. -/

/-- The verification core of `verify_mfa` (lines 588–607): a non-empty TOTP token is
tried first; otherwise a non-empty backup code is looked up in the stored list and,
when found, removed (first occurrence).  Returns `(verified, stored backup codes)`. -/
def verify_mfa_codes (totpOk : String → Bool) (token backup_code : String)
    (codes : List String) : Bool × List String :=
  if token ≠ "" ∧ totpOk token then (true, codes)
  else if backup_code ≠ "" ∧ backup_code ∈ codes then (true, codes.erase backup_code)
  else (false, codes)

/-- C4: a backup-code login removes the used code from the stored list before
completing (its multiplicity drops by one), so — the codes being distinct — the same
code presented again (still with no valid TOTP token) fails verification; a TOTP
verification leaves the stored backup codes unchanged. -/
theorem verify_mfa_backup_codes_spec (totpOk : String → Bool) (token backup_code : String)
    (codes : List String) :
    (token ≠ "" ∧ totpOk token →
      verify_mfa_codes totpOk token backup_code codes = (true, codes)) ∧
    (¬ (token ≠ "" ∧ totpOk token) → backup_code ≠ "" → backup_code ∈ codes →
      verify_mfa_codes totpOk token backup_code codes = (true, codes.erase backup_code) ∧
      (codes.erase backup_code).count backup_code = codes.count backup_code - 1 ∧
      (codes.Nodup →
        (verify_mfa_codes totpOk token backup_code (codes.erase backup_code)).1 = false)) := by
  constructor
  · intro h
    unfold verify_mfa_codes
    rw [if_pos h]
  · intro h1 h2 h3
    refine ⟨?_, ?_, ?_⟩
    · unfold verify_mfa_codes
      rw [if_neg h1, if_pos ⟨h2, h3⟩]
    · exact List.count_erase_self backup_code codes
    · intro hnd
      have hne : backup_code ∉ codes.erase backup_code := by
        intro hmem
        exact ((List.Nodup.mem_erase_iff hnd).mp hmem).1 rfl
      unfold verify_mfa_codes
      rw [if_neg h1, if_neg (fun hc => hne hc.2)]

theorem verify_mfa_backup_codes_spec_witness :
    verify_mfa_codes (fun _ => false) "" "AB12" ["AB12", "CD34"] = (true, ["CD34"]) ∧
    (verify_mfa_codes (fun _ => false) "" "AB12" ["CD34"]).1 = false := by
  have h := (verify_mfa_backup_codes_spec (fun _ => false) "" "AB12" ["AB12", "CD34"]).2
    (by simp) (by simp) (by simp)
  refine ⟨?_, ?_⟩
  · have h1 := h.1
    simpa using h1
  · have h2 := h.2.2 (by simp)
    simpa using h2

/-- The relevant columns of a `users` row. -/
structure UserRow where
  id : ℕ
  name : String
  email : String
  password_hash : String
  mfa_secret : String
  backup_codes : List String
  deriving Repr, DecidableEq

/-- Flask session keys touched by the login flow. -/
structure Session where
  user_id : Option ℕ
  username : Option String
  email : Option String
  pending_user_id : Option ℕ
  pending_email : Option String
  pending_name : Option String
  deriving Repr, DecidableEq

/-- Responses of the two handlers. -/
inductive Page
  | loginForm
  | verifyMfaRedirect
  | loginRedirect
  | verifyMfaForm
  | dashboardRedirect
  deriving Repr, DecidableEq

/-- The POST branch of `login` (lines 526–567): on a password match it only stores
the pending user data and redirects to MFA verification; `lookup_user` abstracts the
SELECT by email, `check_pw` abstracts `check_password_hash`. -/
def login_post (check_pw : String → String → Bool) (lookup_user : String → Option UserRow)
    (email password : String) (s : Session) : Session × Page :=
  if email = "" ∨ password = "" then (s, .loginForm)
  else
    match lookup_user email with
    | some user =>
      if check_pw user.password_hash password then
        ({ s with pending_user_id := some user.id
                  pending_email := some email
                  pending_name := some user.name }, .verifyMfaRedirect)
      else (s, .loginForm)
    | none => (s, .loginForm)

/-- The POST branch of `verify_mfa` (lines 569–632): requires a pending user, runs
`verify_mfa_codes` on that user's stored codes, and only on success moves the pending
id into `session['user_id']`. -/
def verify_mfa_post (fetch_user : ℕ → UserRow) (totpOk : String → Bool)
    (token backup_code : String) (s : Session) : Session × Page :=
  match s.pending_user_id with
  | none => (s, .loginRedirect)
  | some uid =>
    let user := fetch_user uid
    if (verify_mfa_codes totpOk token backup_code user.backup_codes).1 then
      ({ s with pending_user_id := none
                pending_email := none
                pending_name := none
                user_id := some uid
                username := some user.name
                email := some user.email }, .dashboardRedirect)
    else (s, .verifyMfaRedirect)

/-- C7: password login never sets `session['user_id']` — a successful credential
check only records the pending user id and redirects to MFA verification — and
`verify_mfa` changes `user_id` only when a pending user's TOTP token or stored backup
code verifies, in which case `user_id` becomes that pending id. -/
theorem mandatory_mfa_login_spec (check_pw : String → String → Bool)
    (lookup_user : String → Option UserRow) (fetch_user : ℕ → UserRow)
    (totpOk : String → Bool) (email password token backup_code : String) (s : Session) :
    (login_post check_pw lookup_user email password s).1.user_id = s.user_id ∧
    (∀ user, lookup_user email = some user → email ≠ "" → password ≠ "" →
      check_pw user.password_hash password = true →
      login_post check_pw lookup_user email password s =
        ({ s with pending_user_id := some user.id
                  pending_email := some email
                  pending_name := some user.name }, Page.verifyMfaRedirect)) ∧
    ((verify_mfa_post fetch_user totpOk token backup_code s).1.user_id ≠ s.user_id →
      ∃ uid, s.pending_user_id = some uid ∧
        (verify_mfa_codes totpOk token backup_code (fetch_user uid).backup_codes).1 = true ∧
        (verify_mfa_post fetch_user totpOk token backup_code s).1.user_id = some uid) := by
  refine ⟨?_, ?_, ?_⟩
  · unfold login_post
    split_ifs with h
    · rfl
    · cases lookup_user email with
      | none => rfl
      | some user =>
        dsimp only
        split_ifs with h2 <;> rfl
  · intro user hu he hp hc
    unfold login_post
    rw [if_neg (by simp [he, hp]), hu]
    dsimp only
    rw [if_pos hc]
  · unfold verify_mfa_post
    cases hpend : s.pending_user_id with
    | none =>
      intro hne
      exact absurd rfl hne
    | some uid =>
      dsimp only
      split_ifs with hv

      · intro _
        exact ⟨uid, rfl, hv, rfl⟩
      · intro hne
        exact absurd rfl hne

theorem mandatory_mfa_login_spec_witness :
    login_post (fun _ _ => true)
      (fun _ => some ⟨7, "Alice", "a@x.com", "hash", "secret", ["Z9"]⟩)
      "a@x.com" "pw" ⟨none, none, none, none, none, none⟩ =
      ({ user_id := none, username := none, email := none, pending_user_id := some 7,
         pending_email := some "a@x.com", pending_name := some "Alice" },
       Page.verifyMfaRedirect) ∧
    (∃ uid, (⟨none, none, none, some 7, none, none⟩ : Session).pending_user_id = some uid ∧
      (verify_mfa_codes (fun _ => true) "123456" ""
        ((fun _ => (⟨7, "Alice", "a@x.com", "hash", "secret", ["Z9"]⟩ : UserRow)) uid).backup_codes).1 = true ∧
      (verify_mfa_post (fun _ => ⟨7, "Alice", "a@x.com", "hash", "secret", ["Z9"]⟩)
        (fun _ => true) "123456" "" ⟨none, none, none, some 7, none, none⟩).1.user_id = some uid) := by
  constructor
  · exact (mandatory_mfa_login_spec (fun _ _ => true)
      (fun _ => some ⟨7, "Alice", "a@x.com", "hash", "secret", ["Z9"]⟩)
      (fun _ => ⟨7, "Alice", "a@x.com", "hash", "secret", ["Z9"]⟩)
      (fun _ => true) "a@x.com" "pw" "" "" ⟨none, none, none, none, none, none⟩).2.1
      ⟨7, "Alice", "a@x.com", "hash", "secret", ["Z9"]⟩ rfl (by simp) (by simp) rfl
  · exact (mandatory_mfa_login_spec (fun _ _ => true)
      (fun _ => some ⟨7, "Alice", "a@x.com", "hash", "secret", ["Z9"]⟩)
      (fun _ => ⟨7, "Alice", "a@x.com", "hash", "secret", ["Z9"]⟩)
      (fun _ => true) "a@x.com" "pw" "123456" "" ⟨none, none, none, some 7, none, none⟩).2.2
      (by simp [verify_mfa_post, verify_mfa_codes])

/-! ## `WeatherService` (src/services/weather_service.py) -/

/-- One entry of `REGION_META`. -/
structure RegionMeta where
  name : String
  lat : ℚ
  lon : ℚ
  soil_type : String
  irrigation : ℚ
  prev_yield : ℚ
  deriving Repr, DecidableEq

/-- Source `WeatherService.REGION_META` (lines 24–129). -/
def REGION_META : List (String × RegionMeta) := [
  ("kenya_busia", ⟨"Kenya - Busia County", 4347/10000, 342422/10000, "Red", 15, 18/10⟩),
  ("kenya_bungoma", ⟨"Kenya - Bungoma County", 5692/10000, 345584/10000, "Red", 12, 19/10⟩),
  ("kenya_kakamega", ⟨"Kenya - Kakamega County", 2842/10000, 347526/10000, "Red", 10, 20/10⟩),
  ("kenya_homabay", ⟨"Kenya - Homa Bay County", -5273/10000, 344571/10000, "Red", 20, 17/10⟩),
  ("kenya_migori", ⟨"Kenya - Migori County", -10674/10000, 344730/10000, "Red", 18, 18/10⟩),
  ("kenya_siaya", ⟨"Kenya - Siaya County", 607/10000, 342885/10000, "Red", 15, 18/10⟩),
  ("kenya_machakos", ⟨"Kenya - Machakos County", -15181/10000, 372634/10000, "Red", 35, 13/10⟩),
  ("kenya_makueni", ⟨"Kenya - Makueni County", -21943/10000, 376140/10000, "Red", 40, 12/10⟩),
  ("kenya_kitui", ⟨"Kenya - Kitui County", -13664/10000, 380106/10000, "Red", 60, 10/10⟩),
  ("kenya_baringo", ⟨"Kenya - Baringo County", 8552/10000, 352698/10000, "Black", 38, 14/10⟩),
  ("kenya_westpokot", ⟨"Kenya - West Pokot County", 13050/10000, 352698/10000, "Red", 32, 15/10⟩),
  ("kenya_kwale", ⟨"Kenya - Kwale County", -41730/10000, 394521/10000, "Laterite", 25, 16/10⟩),
  ("kenya_kilifi", ⟨"Kenya - Kilifi County", -35107/10000, 399093/10000, "Laterite", 28, 15/10⟩)]

/-- The form_data payload dict (all values are strings, as in the source). -/
structure ExamplePayload where
  name : String
  temp_c : String
  dewpoint_c : String
  precip_mm : String
  solar_rad : String
  annual_rain : String
  rain_cv : String
  soil_type : String
  irrigation : String
  prev_yield : String
  deriving Repr, DecidableEq, Inhabited

/-- Source `WeatherService.FALLBACK_EXAMPLES` (lines 132–211). -/
def FALLBACK_EXAMPLES : List (String × ExamplePayload) := [
  ("kenya_busia",
    ⟨"Kenya - Busia County", "24", "20", "110", "17", "1300", "18", "Red", "15", "1.8"⟩),
  ("kenya_bungoma",
    ⟨"Kenya - Bungoma County", "23", "19", "120", "17", "1400", "16", "Red", "12", "1.9"⟩),
  ("kenya_kakamega",
    ⟨"Kenya - Kakamega County", "23", "20", "130", "16", "1500", "15", "Red", "10", "2.0"⟩),
  ("kenya_homabay",
    ⟨"Kenya - Homa Bay County", "25", "20", "90", "18", "1100", "20", "Red", "20", "1.7"⟩),
  ("kenya_migori",
    ⟨"Kenya - Migori County", "24", "20", "95", "17", "1200", "18", "Red", "18", "1.8"⟩),
  ("kenya_siaya",
    ⟨"Kenya - Siaya County", "24", "21", "100", "17", "1250", "17", "Red", "15", "1.8"⟩),
  ("kenya_machakos",
    ⟨"Kenya - Machakos County", "22", "16", "55", "19", "650", "28", "Red", "35", "1.3"⟩),
  ("kenya_makueni",
    ⟨"Kenya - Makueni County", "23", "15", "50", "20", "600", "30", "Red", "40", "1.2"⟩),
  ("kenya_kitui",
    ⟨"Kenya - Kitui County", "26", "14", "35", "21", "450", "35", "Red", "60", "1.0"⟩),
  ("kenya_baringo",
    ⟨"Kenya - Baringo County", "27", "16", "60", "20", "700", "27", "Black", "38", "1.4"⟩),
  ("kenya_westpokot",
    ⟨"Kenya - West Pokot County", "25", "15", "65", "19", "750", "25", "Red", "32", "1.5"⟩),
  ("kenya_kwale",
    ⟨"Kenya - Kwale County", "26", "22", "85", "18", "1000", "22", "Laterite", "25", "1.6"⟩),
  ("kenya_kilifi",
    ⟨"Kenya - Kilifi County", "27", "23", "80", "19", "950", "24", "Laterite", "28", "1.5"⟩)]

/-- The numeric aggregate returned by `fetch_historical_climate` (lines 268–275).
The HTTP fetch itself is external, so callers receive it as a parameter. -/
structure FetchedClimate where
  temp_c : ℚ
  dewpoint_c : ℚ
  precip_mm : ℚ
  solar_rad : ℚ
  annual_rain : ℚ
  rain_cv : ℚ
  deriving Repr, DecidableEq

/-- Source `get_region_meta` (lines 213–217): raises `KeyError` on unknown keys. -/
def get_region_meta (region_key : String) : Except String RegionMeta :=
  match REGION_META.lookup region_key with
  | none => .error ("Unknown region key: " ++ region_key)
  | some m => .ok m

/-- The key substitution at the top of `build_example_payload` (lines 285–286):
unknown keys silently become `"kenya_busia"`. -/
def resolved_region_key (region_key : String) : String :=
  if (REGION_META.lookup region_key).isSome then region_key else "kenya_busia"

/-- Source `build_example_payload` (lines 277–314): tries the Open-Meteo fetch (`fetch`,
which may fail with any exception) and falls back to the static example on failure;
on success it stringifies (`strf` abstracts Python `str`) the fetched values and adds
the region's metadata.  The `none`/`default` leg of the inner match is unreachable:
the resolved key is always in `REGION_META`. -/
def build_example_payload (fetch : String → Except String FetchedClimate)
    (strf : ℚ → String) (region_key : String) : ExamplePayload :=
  match fetch (resolved_region_key region_key),
        REGION_META.lookup (resolved_region_key region_key) with
  | .error _, _ => (FALLBACK_EXAMPLES.lookup (resolved_region_key region_key)).getD default
  | .ok c, some meta =>
    { name := meta.name
      temp_c := strf c.temp_c
      dewpoint_c := strf c.dewpoint_c
      precip_mm := strf c.precip_mm
      solar_rad := strf c.solar_rad
      annual_rain := strf c.annual_rain
      rain_cv := strf c.rain_cv
      soil_type := meta.soil_type
      irrigation := strf meta.irrigation
      prev_yield := strf meta.prev_yield }
  | .ok _, none => default

theorem lookup_isSome_iff {β : Type} (l : List (String × β)) (k : String) :
    (l.lookup k).isSome ↔ k ∈ l.map Prod.fst := by
  induction l with
  | nil => simp [List.lookup]
  | cons hd tl ih =>
    obtain ⟨k', v⟩ := hd
    by_cases h : k = k'
    · subst h
      simp [List.lookup]
    · have hb : (k == k') = false := beq_false_of_ne h
      simp [List.lookup, hb, ih, h]

theorem fallback_keys_eq : FALLBACK_EXAMPLES.map Prod.fst = REGION_META.map Prod.fst := rfl

/-- C3: for every region key in `REGION_META`, a failing weather fetch makes
`build_example_payload` return exactly that region's `FALLBACK_EXAMPLES` entry, and a
successful fetch makes it return the stringified fetched values together with the
region's metadata. -/
theorem build_example_payload_spec
    (fetch : String → Except String FetchedClimate) (strf : ℚ → String)
    (region_key : String) (meta : RegionMeta)
    (hmem : REGION_META.lookup region_key = some meta) :
    (∀ e, fetch region_key = .error e →
      ∃ fb, FALLBACK_EXAMPLES.lookup region_key = some fb ∧
        build_example_payload fetch strf region_key = fb) ∧
    (∀ c, fetch region_key = .ok c →
      build_example_payload fetch strf region_key =
        { name := meta.name
          temp_c := strf c.temp_c
          dewpoint_c := strf c.dewpoint_c
          precip_mm := strf c.precip_mm
          solar_rad := strf c.solar_rad
          annual_rain := strf c.annual_rain
          rain_cv := strf c.rain_cv
          soil_type := meta.soil_type
          irrigation := strf meta.irrigation
          prev_yield := strf meta.prev_yield }) := by
  have hsome : (REGION_META.lookup region_key).isSome := by rw [hmem]; rfl
  have hres : resolved_region_key region_key = region_key := if_pos hsome
  have hfb : (FALLBACK_EXAMPLES.lookup region_key).isSome := by
    rw [lookup_isSome_iff] at hsome ⊢
    rw [fallback_keys_eq]
    exact hsome
  constructor
  · intro e he
    obtain ⟨fb, hfb'⟩ := Option.isSome_iff_exists.mp hfb
    refine ⟨fb, hfb', ?_⟩
    unfold build_example_payload
    rw [hres, he, hfb', hmem]
    rfl
  · intro c hc
    unfold build_example_payload
    rw [hres, hc, hmem]

theorem build_example_payload_spec_witness :
    ∃ fb, FALLBACK_EXAMPLES.lookup "kenya_busia" = some fb ∧
      build_example_payload (fun _ => Except.error "API down") (fun _ => "")
        "kenya_busia" = fb :=
  (build_example_payload_spec (fun _ => Except.error "API down") (fun _ => "")
    "kenya_busia" ⟨"Kenya - Busia County", 4347/10000, 342422/10000, "Red", 15, 18/10⟩
    rfl).1 "API down" rfl

/-- C10: `build_example_payload` never fails on an unknown region key — it behaves
exactly as if called on `"kenya_busia"` — while `get_region_meta` yields a `KeyError`
for precisely the keys missing from `REGION_META` and the stored metadata otherwise. -/
theorem unknown_region_spec (fetch : String → Except String FetchedClimate)
    (strf : ℚ → String) (region_key : String) :
    (REGION_META.lookup region_key = none →
      build_example_payload fetch strf region_key =
        build_example_payload fetch strf "kenya_busia" ∧
      get_region_meta region_key = .error ("Unknown region key: " ++ region_key)) ∧
    (∀ m, REGION_META.lookup region_key = some m → get_region_meta region_key = .ok m) := by
  constructor
  · intro hnone
    have h1 : resolved_region_key region_key = "kenya_busia" := by
      unfold resolved_region_key
      rw [hnone]
      rfl
    have h2 : resolved_region_key "kenya_busia" = "kenya_busia" := rfl
    constructor
    · unfold build_example_payload
      rw [h1, h2]
    · unfold get_region_meta
      rw [hnone]
  · intro m hm
    unfold get_region_meta
    rw [hm]

theorem unknown_region_spec_witness :
    build_example_payload (fun _ => Except.error "API down") (fun _ => "") "atlantis" =
      build_example_payload (fun _ => Except.error "API down") (fun _ => "") "kenya_busia" ∧
    get_region_meta "atlantis" = .error ("Unknown region key: " ++ "atlantis") :=
  (unknown_region_spec (fun _ => Except.error "API down") (fun _ => "") "atlantis").1 rfl

/-! ## `PredictionService.get_last_year_yield`
(src/services/prediction_service.py, lines 32–105)

The `historical_yields` table is modelled as a row list; `actual_yield` is NOT NULL
(migrations/add_yield_tables.py), so SQL `AVG` is `none` exactly when no row matches.
Python then tests `if result and result[0]:`, which also treats an average of 0.0 as
missing — the `v = 0` branches below. -/

structure HistoricalYieldRow where
  state : String
  district : String
  season : String
  year : ℤ
  actual_yield : ℚ
  deriving Repr, DecidableEq

/-- SQL `AVG(actual_yield)` over a result set: `NULL` when the set is empty. -/
def avg_yield (rows : List HistoricalYieldRow) : Option ℚ :=
  if rows.isEmpty then none
  else some ((rows.map (fun r => r.actual_yield)).sum / rows.length)

/-- The `fetchone` of the exact previous-year SELECT (lines 41–47). -/
def exact_prev_row (db : List HistoricalYieldRow) (state district season : String)
    (year : ℤ) : Option HistoricalYieldRow :=
  db.find? (fun r => r.state == state && r.district == district && r.season == season &&
    r.year == year - 1)

/-- Rows of the `year BETWEEN year-3 AND year-1` window SELECT (lines 54–60). -/
def window_rows (db : List HistoricalYieldRow) (state district season : String)
    (year : ℤ) : List HistoricalYieldRow :=
  db.filter (fun r => r.state == state && r.district == district && r.season == season &&
    decide (year - 3 ≤ r.year) && decide (r.year ≤ year - 1))

/-- Rows of the district-season SELECT (lines 76–80). -/
def district_rows (db : List HistoricalYieldRow) (state district season : String) :
    List HistoricalYieldRow :=
  db.filter (fun r => r.state == state && r.district == district && r.season == season)

/-- Rows of the state-season SELECT (lines 96–100). -/
def state_rows (db : List HistoricalYieldRow) (state season : String) :
    List HistoricalYieldRow :=
  db.filter (fun r => r.state == state && r.season == season)

/-- Source `get_state_average_yield` (lines 91–105): `result[0] if result and result[0] else 2.0`. -/
def get_state_average_yield (db : List HistoricalYieldRow) (state season : String) : ℚ :=
  match avg_yield (state_rows db state season) with
  | some v => if v = 0 then 2 else v
  | none => 2

/-- Source `get_district_average_yield` (lines 71–89). -/
def get_district_average_yield (db : List HistoricalYieldRow)
    (state district season : String) : ℚ :=
  match avg_yield (district_rows db state district season) with
  | some v => if v = 0 then get_state_average_yield db state season else v
  | none => get_state_average_yield db state season

/-- Source `get_last_year_yield` (lines 32–69). -/
def get_last_year_yield (db : List HistoricalYieldRow) (state district season : String)
    (year : ℤ) : ℚ :=
  match exact_prev_row db state district season year with
  | some r => r.actual_yield
  | none =>
    match avg_yield (window_rows db state district season year) with
    | some v => if v = 0 then get_district_average_yield db state district season else v
    | none => get_district_average_yield db state district season

/-- C5 as the claim words it: the exact previous-year yield when that row exists;
otherwise the 3-year-window average whenever any window row exists; otherwise the
district-season average whenever any district row exists; otherwise the state-season
average whenever any state row exists; otherwise the default 2.0. -/
def get_last_year_yield_claimed (db : List HistoricalYieldRow)
    (state district season : String) (year : ℤ) : ℚ :=
  match exact_prev_row db state district season year with
  | some r => r.actual_yield
  | none =>
    match avg_yield (window_rows db state district season year) with
    | some v => v
    | none =>
      match avg_yield (district_rows db state district season) with
      | some v => v
      | none =>
        match avg_yield (state_rows db state season) with
        | some v => v
        | none => 2

/-- C5 counterexample: one historical row with `actual_yield = 0` two years back.
The claim's cascade returns the (existing) 3-year-window average 0, but the code's
truthiness test `if result and result[0]` treats the 0.0 average as missing and falls
through to the default 2.0. -/
theorem get_last_year_yield_counterexample :
    get_last_year_yield [⟨"S", "D", "Kharif", 2018, 0⟩] "S" "D" "Kharif" 2020 = 2 ∧
    get_last_year_yield_claimed [⟨"S", "D", "Kharif", 2018, 0⟩] "S" "D" "Kharif" 2020 = 0 ∧
    (2:ℚ) ≠ 0 := by
  refine ⟨?_, ?_, by norm_num⟩ <;>
    simp [get_last_year_yield, get_last_year_yield_claimed, exact_prev_row, window_rows,
      district_rows, state_rows, avg_yield, get_district_average_yield,
      get_state_average_yield, List.find?, List.filter]

/-- C5 amended: the same cascade, with each average used only when it is both
present (some row matched) and nonzero — the reading forced by Python's
`if result and result[0]` truthiness tests; the function stays total with final
default 2.0. -/
def get_last_year_yield_amended (db : List HistoricalYieldRow)
    (state district season : String) (year : ℤ) : ℚ :=
  match exact_prev_row db state district season year with
  | some r => r.actual_yield
  | none =>
    match avg_yield (window_rows db state district season year) with
    | some v =>
      if v = 0 then
        match avg_yield (district_rows db state district season) with
        | some w =>
          if w = 0 then
            match avg_yield (state_rows db state season) with
            | some u => if u = 0 then 2 else u
            | none => 2
          else w
        | none =>
          match avg_yield (state_rows db state season) with
          | some u => if u = 0 then 2 else u
          | none => 2
      else v
    | none =>
      match avg_yield (district_rows db state district season) with
      | some w =>
        if w = 0 then
          match avg_yield (state_rows db state season) with
          | some u => if u = 0 then 2 else u
          | none => 2
        else w
      | none =>
        match avg_yield (state_rows db state season) with
        | some u => if u = 0 then 2 else u
        | none => 2

/-- C5 amended, proved: `get_last_year_yield` is total (it always produces a value)
and realises exactly the amended cascade — exact previous-year yield, then each
average fallback only when present and nonzero, then the hard-coded default 2.0. -/
theorem get_last_year_yield_amended_spec (db : List HistoricalYieldRow)
    (state district season : String) (year : ℤ) :
    get_last_year_yield db state district season year =
      get_last_year_yield_amended db state district season year := by
  unfold get_last_year_yield get_last_year_yield_amended get_district_average_yield
    get_state_average_yield
  cases exact_prev_row db state district season year with
  | some r => rfl
  | none =>
    cases avg_yield (window_rows db state district season year) with
    | some v => rfl
    | none => rfl

end CottonApp
